import Mathlib

/-!
Verification of the wells API client (`wells_api_client.py`).

We shallowly embed the data-retrieval and filtering client: the record data
model, the numeric coercion used by the filter engine, the response-decode
stage of `get_wells_data`, the pagination loop `get_all_wells_data`, and the
filters `filter_by_state` and `filter_by_offshore`.  Python values become
explicit sums, Python dicts become association lists with Python's update
semantics (in-place overwrite for an existing key, append for a new key),
and Python exceptions become `Except.error`.
-/

namespace Wells

/-- Propositional equality on `Except` results is decidable when both
component types have decidable equality (needed to evaluate theorems about
raised-versus-returned outcomes on concrete inputs). -/
instance {α β : Type} [DecidableEq α] [DecidableEq β] : DecidableEq (Except α β) := fun x y =>
  match x, y with
  | .error a, .error b =>
    if h : a = b then .isTrue (by rw [h])
    else .isFalse (fun hh => h (Except.error.inj hh))
  | .error _, .ok _ => .isFalse (fun hh => Except.noConfusion hh)
  | .ok _, .error _ => .isFalse (fun hh => Except.noConfusion hh)
  | .ok a, .ok b =>
    if h : a = b then .isTrue (by rw [h])
    else .isFalse (fun hh => h (Except.ok.inj hh))

/-- A JSON scalar stored in a record field: the upstream API delivers each
field either as a string or as a number.  Numbers are modelled as rationals
(well counts and their decimal renderings are exact rationals; no claim
depends on binary floating-point rounding). -/
inductive JVal where
  | str (s : String)
  | num (q : Rat)
deriving DecidableEq

/-- A Record: one row returned by the API, a mapping from field name to
value (Python dict of str/number values). -/
abbrev Record := List (String × JVal)

/-- `record.get(f, default)` without the default: first binding for `f`.
Python dicts have unique keys, so first-match lookup is exact. -/
def getField : Record → String → Option JVal
  | [], _ => none
  | (k, v) :: rest, f => if k = f then some v else getField rest f

/-- Digit run to a natural number (standard positional reading). -/
def digitsToNat (l : List Char) : Nat :=
  l.foldl (fun a c => 10 * a + (c.toNat - 48)) 0

/-- Model of Python's builtin `float(s)` on strings: strip surrounding
whitespace, optional sign, then decimal digits with an optional fractional
part (`"12"`, `"12."`, `"12.5"`, `".5"`); anything else (such as `"abc"`)
fails.  Exponent forms and `inf`/`nan` are omitted: no claim exercises
them. -/
def parseFloat? (s : String) : Option Rat :=
  let t := ((s.data.dropWhile Char.isWhitespace).reverse.dropWhile
    Char.isWhitespace).reverse
  let signed : Bool × List Char :=
    match t with
    | '-' :: r => (true, r)
    | '+' :: r => (false, r)
    | r => (false, r)
  let neg := signed.1
  let body := signed.2
  let intPart := body.takeWhile Char.isDigit
  let rest := body.dropWhile Char.isDigit
  let mag : Option Rat :=
    match rest with
    | [] =>
      if intPart = [] then none
      else some ((digitsToNat intPart : Nat) : Rat)
    | '.' :: frac =>
      if frac.all Char.isDigit && !(intPart = [] && frac = []) then
        some (((digitsToNat (intPart ++ frac) : Nat) : Rat) / ((10 : Rat) ^ frac.length))
      else none
    | _ => none
  mag.map (fun q => if neg then -q else q)

/-- Model of Python's `float(x)` applied to a record field value: a number
passes through unchanged; a string is parsed, and a parse failure raises
`ValueError` (modelled as `Except.error`). -/
def pyFloat : JVal → Except String Rat
  | .num q => .ok q
  | .str s =>
    match parseFloat? s with
    | some q => .ok q
    | none => .error ("could not convert string to float: " ++ s)

/-- The numeric coercion expression used by the filter engine:
`float(record.get(field, 0))`.  A missing field defaults to `0`; a
non-numeric string raises (propagated as `Except.error`). -/
def coerceField (r : Record) (f : String) : Except String Rat :=
  pyFloat ((getField r f).getD (JVal.num 0))

/-- A top-level value of the decoded JSON response mapping: either the list
of records (the `"records"` entry) or a scalar (count, message, or any other
metadata entry). -/
inductive RVal where
  | recs (rs : List Record)
  | prim (v : JVal)
deriving DecidableEq

/-- The decoded JSON response mapping (a Python dict). -/
abbrev RDict := List (String × RVal)

/-- Dict lookup on the response mapping. -/
def lookupRD : RDict → String → Option RVal
  | [], _ => none
  | (k, v) :: rest, f => if k = f then some v else lookupRD rest f

/-- Python's `key in dict`. -/
def hasKey : RDict → String → Bool
  | [], _ => false
  | (k', _) :: rest, k => k' = k || hasKey rest k

/-- Python's `d[k] = v` on a dict: overwrite in place when the key exists
(position preserved), append otherwise. -/
def dictSet (d : RDict) (k : String) (v : RVal) : RDict :=
  if hasKey d k then d.map (fun kv => if kv.1 = k then (k, v) else kv)
  else d ++ [(k, v)]

/-- `all_data.get("records", [])`.  (If the entry held a scalar instead of a
list, the Python filter would raise `TypeError`; that type-confused shape
never arises from the decoder and is outside the claims, so the embedding
returns `[]` for it and the theorems pin the entry's shape explicitly.) -/
def getRecords (d : RDict) : List Record :=
  match lookupRD d "records" with
  | some (.recs rs) => rs
  | _ => []

/-- Does the prefix list match the front of the second list? -/
def subMatch : List Char → List Char → Bool
  | [], _ => true
  | _ :: _, [] => false
  | n :: ns, h :: hs => n = h && subMatch ns hs

/-- Does the first list occur contiguously inside the second? -/
def subFind : List Char → List Char → Bool
  | ns, [] => subMatch ns []
  | ns, h :: hs => subMatch ns (h :: hs) || subFind ns hs

/-- Python's `needle in hay` on strings (substring test). -/
def strContains (hay needle : String) : Bool :=
  subFind needle.data hay.data

/-- Python's `str.lower()` (the recognized state keys are all ASCII, so the
character-wise ASCII lowering is exact here). -/
def pyLower (s : String) : String :=
  String.mk (s.data.map Char.toLower)

/-- The payload `get_wells_data` hands back: a decoded JSON mapping for
`format_type="json"`, a parsed XML element for `"xml"` (modelled by its
serialized text), or the raw response text for `"csv"` and anything else. -/
inductive Payload where
  | json (d : RDict)
  | xmlElem (s : String)
  | text (s : String)
deriving DecidableEq

/-- Python's `"error" in all_data`, as the filters apply it to whatever
`get_wells_data` returned: key membership on a dict, substring test on a
string, and child iteration on an XML element (a child element never equals
the string `"error"`, so that test is always false). -/
def containsError : Payload → Bool
  | .json d => hasKey d "error"
  | .text s => strContains s "error"
  | .xmlElem _ => false

/-- A raw HTTP response body as the decode stage of `get_wells_data` sees
it, after `raise_for_status` succeeded: the body text together with the
outcomes of the two builtin parsers on that body (`response.json()` and
`ET.fromstring(response.text)`), each either a parsed value or the parser's
error message. -/
structure RawResponse where
  text : String
  jsonOutcome : Except String RDict
  xmlOutcome : Except String String

/-- The decode stage of `get_wells_data` (lines 64-76): for `"json"`, a
`json.JSONDecodeError` is caught, two diagnostic lines are printed (returned
here as the second component) and an `{"error": ...}` mapping is returned;
for `"xml"`, `ET.fromstring` runs with no handler for `ParseError` (the
surrounding `except` only catches `requests.exceptions.RequestException`),
so a malformed body propagates the exception (`Except.error`); for `"csv"`
and any other format the raw text is returned. -/
def get_wells_data_decode (format_type : String) (resp : RawResponse) :
    Except String (Payload × List String) :=
  if format_type = "json" then
    match resp.jsonOutcome with
    | .ok d => .ok (.json d, [])
    | .error e =>
      .ok (.json [("error", .prim (.str ("JSON decode error: " ++ e)))],
           ["Error parsing JSON response: " ++ e,
            "Response text: " ++ resp.text.take 200 ++ "..."])
  else if format_type = "xml" then
    match resp.xmlOutcome with
    | .ok x => .ok (.xmlElem x, [])
    | .error e => .error e
  else
    .ok (.text resp.text, [])

/-- What one iteration of the pagination loop sees from
`get_wells_data(format_type="json", offset, limit)` followed by the loop's
own `"error" in response` check and `response.get("result", {}).get("records", [])`
extraction: either the error branch fired, or a (possibly empty) page of
records was extracted. -/
inductive PageResp where
  | err (msg : String)
  | ok (records : List Record)
deriving DecidableEq

/-- The body of `get_all_wells_data`'s `while True` loop (json path,
lines 98-123), with explicit state and an explicit recursion bound (the
Python loop is unbounded; every theorem below either holds for all bounds
or supplies a bound large enough that the loop provably stops first).
Returns the accumulated records, the printed error diagnostics, and — as
instrumentation for the pagination claims — one `(offset, accumulatedCount)`
pair per request actually issued. -/
def getAllAux (src : Nat → Nat → PageResp) (batchSize : Nat) :
    Nat → Nat → List Record → List Record × List String × List (Nat × Nat)
  | 0, _, acc => (acc, [], [])
  | fuel + 1, offset, acc =>
    match src offset batchSize with
    | .err e =>
      (acc, ["Error at offset " ++ toString offset ++ ": " ++ e],
       [(offset, acc.length)])
    | .ok records =>
      if records = [] then (acc, [], [(offset, acc.length)])
      else if records.length < batchSize then
        (acc ++ records, [], [(offset, acc.length)])
      else
        let out := getAllAux src batchSize fuel (offset + batchSize) (acc ++ records)
        (out.1, out.2.1, (offset, acc.length) :: out.2.2)

/-- `get_all_wells_data(format_type="json", batch_size)`: run the loop from
`offset = 0` with an empty accumulator. -/
def get_all_wells_data (src : Nat → Nat → PageResp) (batchSize fuel : Nat) :
    List Record × List String × List (Nat × Nat) :=
  getAllAux src batchSize fuel 0 []

/-- A well-behaved JSON source backed by one fixed record list: a request at
`(offset, limit)` returns the records at positions `offset, ..., offset + limit - 1`. -/
def sliceSrc (L : List Record) : Nat → Nat → PageResp :=
  fun off lim => .ok ((L.drop off).take lim)

/-- A Python list comprehension whose predicate may raise: elements are
tested left to right and the first exception aborts the whole comprehension. -/
def filterE (p : Record → Except String Bool) : List Record → Except String (List Record)
  | [] => .ok []
  | r :: rs =>
    match p r with
    | .error e => .error e
    | .ok b =>
      match filterE p rs with
      | .error e => .error e
      | .ok rest => .ok (if b then r :: rest else rest)

/-- The fixed state-key table of `filter_by_state` (lines 138-149), in
source order: recognized key to internal field name. -/
def state_filters : List (String × String) :=
  [("gujarat", "gujarat"),
   ("rajasthan", "rajasthan"),
   ("assam", "assam___arunachal_pradesh"),
   ("tripura", "tripura"),
   ("andhra_pradesh", "andhra_pradesh"),
   ("tamilnadu", "tamilnadu"),
   ("west_bengal", "west_bangal__cbm_"),
   ("jharkhand", "jharkhand__cbm_"),
   ("madhya_pradesh", "madhya_pradesh__cbm_"),
   ("other_states", "other_state__up_hp_mp_bihar__punjab_jk_wb_")]

/-- Lookup in the state-key table. -/
def lookupStr : List (String × String) → String → Option String
  | [], _ => none
  | (k, v) :: rest, f => if k = f then some v else lookupStr rest f

/-- The message of the `{"error": ...}` mapping `filter_by_state` returns
for an unrecognized state name; it embeds the list of valid keys. -/
def availableStatesMsg : String :=
  "Invalid state name. Available states: " ++ toString (state_filters.map Prod.fst)

/-- `filter_by_state(state_name, format_type)` (lines 127-169).  `fetch lim`
stands for `self.get_wells_data(format_type=format_type, limit=lim)`.
Returns the function's result (`Except.error` standing for an uncaught
Python exception, here the `ValueError` that `float()` can raise in the
list comprehension) together with a flag recording whether a fetch was
issued. -/
def filter_by_state (fetch : Nat → Payload) (state_name format_type : String) :
    Except String Payload × Bool :=
  match lookupStr state_filters (pyLower state_name) with
  | none =>
    (.ok (.json [("error", .prim (.str availableStatesMsg))]), false)
  | some state_field =>
    let all_data := fetch 1000
    if containsError all_data then (.ok all_data, true)
    else if format_type = "json" then
      match all_data with
      | .json d =>
        match filterE
            (fun r => (coerceField r state_field).map (fun q => decide (0 < q)))
            (getRecords d) with
        | .error e => (.error e, true)
        | .ok filtered_records =>
          (.ok (.json (dictSet (dictSet d "records" (.recs filtered_records))
                 "count" (.prim (.num filtered_records.length)))), true)
      | _ =>
        -- json format with a non-dict payload cannot arise from the
        -- decoder; Python would raise AttributeError on `.get`.
        (.error "AttributeError", true)
    else (.ok all_data, true)

/-- `filter_by_offshore(offshore, format_type)` (lines 185-216), with the
same conventions as `filter_by_state`; there is no key validation and the
fetch always happens. -/
def filter_by_offshore (fetch : Nat → Payload) (offshore : Bool) (format_type : String) :
    Except String Payload :=
  let all_data := fetch 1000
  if containsError all_data then .ok all_data
  else if format_type = "json" then
    match all_data with
    | .json d =>
      let res :=
        if offshore then
          filterE (fun r => (coerceField r "offshore").map (fun q => decide (0 < q)))
            (getRecords d)
        else
          filterE (fun r => (coerceField r "offshore").map (fun q => decide (q = 0)))
            (getRecords d)
      match res with
      | .error e => .error e
      | .ok filtered_records =>
        .ok (.json (dictSet (dictSet d "records" (.recs filtered_records))
              "count" (.prim (.num filtered_records.length))))
    | _ => .error "AttributeError"
  else .ok all_data

/-- The pure record predicate `filter_by_state`'s comprehension computes
when no coercion raises: mapped field coerces to a value strictly above 0. -/
def passGt (f : String) (r : Record) : Bool :=
  match coerceField r f with
  | .ok q => decide (0 < q)
  | .error _ => false

/-- The pure record predicate of `filter_by_offshore(False)` when no
coercion raises: the `offshore` field coerces to exactly 0. -/
def passEq0 (f : String) (r : Record) : Bool :=
  match coerceField r f with
  | .ok q => decide (q = 0)
  | .error _ => false

/-! ### Helper lemmas -/

/-- If the predicate succeeds on every element with the boolean `q`,
the exception-aware comprehension is the ordinary stable `List.filter`. -/
theorem filterE_eq_filter (p : Record → Except String Bool) (q : Record → Bool)
    (rs : List Record) (h : ∀ r ∈ rs, p r = .ok (q r)) :
    filterE p rs = .ok (rs.filter q) := by
  induction rs with
  | nil => rfl
  | cons r rest ih =>
    have hr : p r = .ok (q r) := h r (List.mem_cons_self r rest)
    have hrest : filterE p rest = .ok (rest.filter q) :=
      ih (fun x hx => h x (List.mem_cons_of_mem r hx))
    simp [filterE, hr, hrest, List.filter_cons]

theorem lookupRD_map_upd (d : RDict) (k : String) (v : RVal) (k' : String)
    (h : k' ≠ k) :
    lookupRD (d.map (fun kv => if kv.1 = k then (k, v) else kv)) k' = lookupRD d k' := by
  induction d with
  | nil => rfl
  | cons hd tl ih =>
    obtain ⟨a, b⟩ := hd
    rw [List.map_cons]
    by_cases hak : a = k
    · rw [if_pos (show (a, b).1 = k from hak)]
      simp only [lookupRD]
      rw [if_neg (Ne.symm h), if_neg (show ¬a = k' from fun hh => h (hh ▸ hak))]
      exact ih
    · rw [if_neg (show ¬(a, b).1 = k from hak)]
      simp only [lookupRD]
      by_cases hak' : a = k'
      · rw [if_pos hak', if_pos hak']
      · rw [if_neg hak', if_neg hak']
        exact ih

theorem lookupRD_eq_none (d : RDict) (k : String) (h : hasKey d k = false) :
    lookupRD d k = none := by
  induction d with
  | nil => rfl
  | cons hd tl ih =>
    obtain ⟨a, b⟩ := hd
    simp only [hasKey, Bool.or_eq_false_iff, decide_eq_false_iff_not] at h
    simp only [lookupRD, if_neg h.1]
    exact ih h.2

theorem lookupRD_append (d e : RDict) (k : String) :
    lookupRD (d ++ e) k =
      match lookupRD d k with
      | some v => some v
      | none => lookupRD e k := by
  induction d with
  | nil => rfl
  | cons hd tl ih =>
    obtain ⟨a, b⟩ := hd
    by_cases hak : a = k <;> simp [lookupRD, hak, ih]

/-- Frame property of Python dict assignment: looking up any other key is
unchanged. -/
theorem lookupRD_dictSet_ne (d : RDict) (k : String) (v : RVal) (k' : String)
    (h : k' ≠ k) :
    lookupRD (dictSet d k v) k' = lookupRD d k' := by
  unfold dictSet
  by_cases hk : hasKey d k
  · rw [if_pos hk]; exact lookupRD_map_upd d k v k' h
  · rw [if_neg hk, lookupRD_append]
    cases hl : lookupRD d k' with
    | some v' => rfl
    | none => simp [lookupRD, Ne.symm h]

theorem lookupRD_map_self (d : RDict) (k : String) (v : RVal)
    (hk : hasKey d k = true) :
    lookupRD (d.map (fun kv => if kv.1 = k then (k, v) else kv)) k = some v := by
  induction d with
  | nil => simp [hasKey] at hk
  | cons hd tl ih =>
    obtain ⟨a, b⟩ := hd
    rw [List.map_cons]
    by_cases hak : a = k
    · rw [if_pos (show (a, b).1 = k from hak)]
      simp [lookupRD]
    · rw [if_neg (show ¬(a, b).1 = k from hak)]
      simp only [lookupRD]
      rw [if_neg hak]
      have htl : hasKey tl k = true := by simpa [hasKey, hak] using hk
      exact ih htl

/-- Python dict assignment stores the value at the key. -/
theorem lookupRD_dictSet_self (d : RDict) (k : String) (v : RVal) :
    lookupRD (dictSet d k v) k = some v := by
  unfold dictSet
  by_cases hk : hasKey d k
  · rw [if_pos hk]
    exact lookupRD_map_self d k v hk
  · rw [if_neg hk, lookupRD_append,
      lookupRD_eq_none d k (Bool.eq_false_iff.mpr hk)]
    simp [lookupRD]

/-- Loop invariant of the pagination driver: starting from a state where the
offset equals the number of records already accumulated, and against a
source that never returns more records than the requested limit, every
request issued carries an offset equal to the accumulator length at that
moment, and the offsets issued from that state are exactly
`off, off + b, off + 2*b, ...`. -/
theorem getAllAux_trace (src : Nat → Nat → PageResp) (b : Nat)
    (hsz : ∀ off lim rs, src off lim = PageResp.ok rs → rs.length ≤ lim) :
    ∀ fuel off acc, off = acc.length →
      (∀ p ∈ (getAllAux src b fuel off acc).2.2, p.1 = p.2) ∧
      (getAllAux src b fuel off acc).2.2.map Prod.fst =
        (List.range (getAllAux src b fuel off acc).2.2.length).map
          (fun i => off + i * b) := by
  intro fuel
  induction fuel with
  | zero => intro off acc h; simp [getAllAux]
  | succ n ih =>
    intro off acc h
    subst h
    cases hsrc : src acc.length b with
    | err e => simp [getAllAux, hsrc, List.range_succ]
    | ok records =>
      by_cases hemp : records = []
      · simp [getAllAux, hsrc, hemp, List.range_succ]
      · by_cases hlt : records.length < b
        · simp [getAllAux, hsrc, hemp, hlt, List.range_succ]
        · have hlen : records.length = b :=
            Nat.le_antisymm (hsz acc.length b records hsrc) (Nat.le_of_not_lt hlt)
          have hstep : getAllAux src b (n + 1) acc.length acc =
              ((getAllAux src b n (acc.length + b) (acc ++ records)).1,
               (getAllAux src b n (acc.length + b) (acc ++ records)).2.1,
               (acc.length, acc.length) ::
                 (getAllAux src b n (acc.length + b) (acc ++ records)).2.2) := by
            simp [getAllAux, hsrc, hemp, hlt]
          have h2 : acc.length + b = (acc ++ records).length := by
            simp [List.length_append, hlen]
          obtain ⟨ihA, ihB⟩ := ih (acc.length + b) (acc ++ records) h2
          rw [hstep]
          constructor
          · intro p hp
            rcases List.mem_cons.mp hp with hph | hpt
            · rw [hph]
            · exact ihA p hpt
          · simp only [List.map_cons, List.length_cons, ihB,
              List.range_succ_eq_map, List.map_map]
            have hfun : ((fun i => acc.length + i * b) ∘ Nat.succ) =
                (fun i => acc.length + b + i * b) := by
              funext i
              simp only [Function.comp, Nat.succ_mul]
              ring
            rw [hfun]
            simp

/-- The slice-backed source honors the requested limit: no page exceeds it. -/
theorem sliceSrc_le (L : List Record) :
    ∀ off lim rs, sliceSrc L off lim = PageResp.ok rs → rs.length ≤ lim := by
  intro off lim rs hrs
  simp only [sliceSrc] at hrs
  cases hrs
  simp only [List.length_take]
  omega

/-! ### Claims -/

/-- C1: the claim states that the numeric coercion used by the filter engine
is total and never throws, returning 0 when a textual field value fails to
parse as a float; in particular the exception branch inside
`filter_by_state` and `filter_by_offshore` would be unreachable even for a
record whose field value is `"abc"`.  The code uses a bare
`float(record.get(field, 0))` with no handler, so on the record
`{"gujarat": "abc"}` the coercion raises `ValueError` and `filter_by_state`
propagates it instead of treating the value as 0; this evaluates the code
at that failing input. -/
theorem C1_coercion_raises_on_nonnumeric_text :
    coerceField [("gujarat", JVal.str "abc")] "gujarat" =
      Except.error "could not convert string to float: abc" ∧
    (filter_by_state
        (fun _ => Payload.json
          [("records", RVal.recs [[("gujarat", JVal.str "abc")]])])
        "gujarat" "json").1 =
      Except.error "could not convert string to float: abc" := by
  exact ⟨by decide, by decide⟩

/-- C2: every request issued by `get_all_wells_data` carries an offset equal
to the number of records already retrieved at that moment, and the issued
offsets are exactly `0, b, 2*b, ...` — strictly increasing, non-overlapping,
with no position skipped — for every batch size `b > 0` and every source
whose pages never exceed the requested limit. -/
theorem C2_offsets_equal_total_fetched (src : Nat → Nat → PageResp) (b : Nat)
    (hb : 0 < b)
    (hsz : ∀ off lim rs, src off lim = PageResp.ok rs → rs.length ≤ lim)
    (fuel : Nat) :
    (∀ p ∈ (get_all_wells_data src b fuel).2.2, p.1 = p.2) ∧
    (get_all_wells_data src b fuel).2.2.map Prod.fst =
      (List.range (get_all_wells_data src b fuel).2.2.length).map (fun i => i * b) ∧
    ((get_all_wells_data src b fuel).2.2.map Prod.fst).Pairwise (· < ·) := by
  obtain ⟨hA, hB⟩ :=
    getAllAux_trace src b hsz fuel 0 [] rfl
  have hB' : (get_all_wells_data src b fuel).2.2.map Prod.fst =
      (List.range (get_all_wells_data src b fuel).2.2.length).map (fun i => i * b) := by
    simpa [get_all_wells_data] using hB
  refine ⟨hA, hB', ?_⟩
  rw [hB', List.pairwise_map]
  exact (List.pairwise_lt_range _).imp
    (fun hij => (Nat.mul_lt_mul_right hb).mpr hij)

/-- Witness for C2 at a concrete source and batch size. -/
theorem C2_offsets_equal_total_fetched_witness :
    (0 < 100) ∧
    ((∀ p ∈ (get_all_wells_data (sliceSrc [[("gujarat", JVal.num 1)]]) 100 5).2.2,
        p.1 = p.2) ∧
     (get_all_wells_data (sliceSrc [[("gujarat", JVal.num 1)]]) 100 5).2.2.map Prod.fst =
       (List.range
         (get_all_wells_data (sliceSrc [[("gujarat", JVal.num 1)]]) 100 5).2.2.length).map
         (fun i => i * 100) ∧
     ((get_all_wells_data (sliceSrc [[("gujarat", JVal.num 1)]]) 100 5).2.2.map
        Prod.fst).Pairwise (· < ·)) :=
  ⟨by decide,
   C2_offsets_equal_total_fetched (sliceSrc [[("gujarat", JVal.num 1)]]) 100
     (by decide) (sliceSrc_le _) 5⟩

/-- C3: against a JSON source holding exactly 250 records,
`get_all_wells_data` with batch size 100 issues requests at offsets 0, 100
and 200 only (each equal to the count already retrieved), returns all 250
records in the source's original order with no error diagnostic, and stops
after the short page of 50 — the result is the same for every remaining
recursion budget, so the loop terminates there. -/
theorem C3_fetch_all_250 (L : List Record) (h : L.length = 250) (f : Nat) :
    get_all_wells_data (sliceSrc L) 100 (f + 3) =
      (L, [], [(0, 0), (100, 100), (200, 200)]) := by
  have l1 : (L.take 100).length = 100 := by simp [h]
  have l2 : ((L.drop 100).take 100).length = 100 := by simp [h]
  have l3 : ((L.drop 200).take 100).length = 50 := by simp [h]
  have hA : L.take 100 ++ (L.drop 100).take 100 = L.take 200 :=
    (List.take_add L 100 100).symm
  have lA : (L.take 200).length = 200 := by simp [h]
  have hB : L.take 200 ++ (L.drop 200).take 100 = L.take 300 :=
    (List.take_add L 200 100).symm
  have hC : L.take 300 = L := List.take_of_length_le (by simp [h])
  have ne1 : ¬(L.take 100 = []) := by
    intro hh; rw [hh] at l1; simp at l1
  have ne2 : ¬((L.drop 100).take 100 = []) := by
    intro hh; rw [hh] at l2; simp at l2
  have ne3 : ¬((L.drop 200).take 100 = []) := by
    intro hh; rw [hh] at l3; simp at l3
  show getAllAux (sliceSrc L) 100 (f + 3) 0 [] = _
  have s1 : getAllAux (sliceSrc L) 100 (f + 3) 0 [] =
      ((getAllAux (sliceSrc L) 100 (f + 2) 100 (L.take 100)).1,
       (getAllAux (sliceSrc L) 100 (f + 2) 100 (L.take 100)).2.1,
       (0, 0) :: (getAllAux (sliceSrc L) 100 (f + 2) 100 (L.take 100)).2.2) := by
    show getAllAux (sliceSrc L) 100 (f + 2 + 1) 0 [] = _
    simp only [getAllAux, sliceSrc, List.drop_zero]
    rw [if_neg ne1, if_neg (by rw [l1]; omega)]
    simp
  have s2 : getAllAux (sliceSrc L) 100 (f + 2) 100 (L.take 100) =
      ((getAllAux (sliceSrc L) 100 (f + 1) 200 (L.take 200)).1,
       (getAllAux (sliceSrc L) 100 (f + 1) 200 (L.take 200)).2.1,
       (100, 100) :: (getAllAux (sliceSrc L) 100 (f + 1) 200 (L.take 200)).2.2) := by
    show getAllAux (sliceSrc L) 100 (f + 1 + 1) 100 (L.take 100) = _
    simp only [getAllAux, sliceSrc]
    rw [if_neg ne2, if_neg (by rw [l2]; omega)]
    simp [hA, l1]
  have s3 : getAllAux (sliceSrc L) 100 (f + 1) 200 (L.take 200) =
      (L, [], [(200, 200)]) := by
    simp only [getAllAux, sliceSrc]
    rw [if_neg ne3, if_pos (by rw [l3]; omega)]
    simp [hB, hC, lA]
  rw [s1, s2, s3]

/-- Witness for C3 at a concrete 250-record source. -/
theorem C3_fetch_all_250_witness :
    (((List.range 250).map (fun (i : Nat) => [("i", JVal.num (i : Rat))])).length = 250) ∧
    get_all_wells_data
        (sliceSrc ((List.range 250).map (fun (i : Nat) => [("i", JVal.num (i : Rat))]))) 100 3 =
      ((List.range 250).map (fun (i : Nat) => [("i", JVal.num (i : Rat))]), [],
       [(0, 0), (100, 100), (200, 200)]) :=
  ⟨by rw [List.length_map, List.length_range],
   C3_fetch_all_250 ((List.range 250).map (fun (i : Nat) => [("i", JVal.num (i : Rat))]))
     (by rw [List.length_map, List.length_range]) 0⟩

/-- C4: when the first page succeeds with a full page and the second page
fetch fails, `get_all_wells_data` stops at the failure and returns the first
page's records — a non-empty partial result — together with the printed
error diagnostic; no exception path exists in the loop, so the accumulated
records are never discarded. -/
theorem C4_partial_result_on_second_page_failure (P : List Record) (b : Nat)
    (hb : 0 < b) (hP : P.length = b) (e : String) (src : Nat → Nat → PageResp)
    (h0 : src 0 b = PageResp.ok P) (h1 : src b b = PageResp.err e) (f : Nat) :
    get_all_wells_data src b (f + 2) =
      (P, ["Error at offset " ++ toString b ++ ": " ++ e], [(0, 0), (b, b)]) ∧
    P ≠ [] := by
  have ne : ¬(P = []) := by
    intro hh; rw [hh] at hP; simp at hP; omega
  refine ⟨?_, ne⟩
  show getAllAux src b (f + 2) 0 [] = _
  have s1 : getAllAux src b (f + 2) 0 [] =
      ((getAllAux src b (f + 1) b P).1,
       (getAllAux src b (f + 1) b P).2.1,
       (0, 0) :: (getAllAux src b (f + 1) b P).2.2) := by
    show getAllAux src b (f + 1 + 1) 0 [] = _
    simp only [getAllAux, h0]
    rw [if_neg ne, if_neg (by rw [hP]; omega)]
    simp
  have s2 : getAllAux src b (f + 1) b P =
      (P, ["Error at offset " ++ toString b ++ ": " ++ e], [(b, b)]) := by
    simp only [getAllAux, h1, hP]
  rw [s1, s2]

/-- Witness for C4 at a concrete failing source. -/
theorem C4_partial_result_on_second_page_failure_witness :
    (0 < 1) ∧ (([[("gujarat", JVal.num 7)]] : List Record).length = 1) ∧
    ((fun off _ => if off = 0 then PageResp.ok [[("gujarat", JVal.num 7)]]
        else PageResp.err "timeout") 0 1 =
      PageResp.ok [[("gujarat", JVal.num 7)]]) ∧
    ((fun off _ => if off = 0 then PageResp.ok [[("gujarat", JVal.num 7)]]
        else PageResp.err "timeout") 1 1 = PageResp.err "timeout") ∧
    (get_all_wells_data
        (fun off _ => if off = 0 then PageResp.ok [[("gujarat", JVal.num 7)]]
          else PageResp.err "timeout") 1 2 =
      ([[("gujarat", JVal.num 7)]], ["Error at offset " ++ toString 1 ++ ": " ++ "timeout"],
       [(0, 0), (1, 1)]) ∧
     ([[("gujarat", JVal.num 7)]] : List Record) ≠ []) :=
  ⟨by decide, by decide, by decide, by decide,
   C4_partial_result_on_second_page_failure [[("gujarat", JVal.num 7)]] 1
     (by decide) (by decide) "timeout" _ (by decide) (by decide) 0⟩

/-- When the coercion succeeds, the `> 0` test inside the comprehension
computes the pure predicate `passGt`. -/
theorem coerce_map_gt (fld : String) (r : Record)
    (h : (coerceField r fld).isOk = true) :
    (coerceField r fld).map (fun q => decide (0 < q)) = Except.ok (passGt fld r) := by
  cases hc : coerceField r fld with
  | ok q => simp [Except.map, passGt, hc]
  | error e => rw [hc] at h; simp [Except.isOk, Except.toBool] at h

/-- When the coercion succeeds, the `== 0` test inside the comprehension
computes the pure predicate `passEq0`. -/
theorem coerce_map_eq0 (fld : String) (r : Record)
    (h : (coerceField r fld).isOk = true) :
    (coerceField r fld).map (fun q => decide (q = 0)) = Except.ok (passEq0 fld r) := by
  cases hc : coerceField r fld with
  | ok q => simp [Except.map, passEq0, hc]
  | error e => rw [hc] at h; simp [Except.isOk, Except.toBool] at h

/-- Behaviour of `filter_by_state` on a recognized key, a successful JSON
fetch, and records whose mapped field always coerces: the result replaces
`"records"` with the stable filter on coercion `> 0` and `"count"` with its
length. -/
theorem filter_by_state_json_ok (fetch : Nat → Payload) (name fld : String)
    (d : RDict) (rs : List Record)
    (hname : lookupStr state_filters (pyLower name) = some fld)
    (hfetch : fetch 1000 = Payload.json d)
    (herr : hasKey d "error" = false)
    (hrecs : lookupRD d "records" = some (RVal.recs rs))
    (hok : ∀ r ∈ rs, (coerceField r fld).isOk = true) :
    (filter_by_state fetch name "json").1 =
      Except.ok (Payload.json
        (dictSet (dictSet d "records" (RVal.recs (rs.filter (passGt fld))))
          "count" (RVal.prim (JVal.num ((rs.filter (passGt fld)).length : Rat))))) := by
  have hrecs' : getRecords d = rs := by simp [getRecords, hrecs]
  have hfil : filterE (fun r => (coerceField r fld).map (fun q => decide (0 < q))) rs =
      Except.ok (rs.filter (passGt fld)) :=
    filterE_eq_filter _ (passGt fld) rs (fun r hr => coerce_map_gt fld r (hok r hr))
  simp only [filter_by_state, hname, hfetch, containsError, herr, hrecs', hfil]
  simp

/-- Behaviour of `filter_by_offshore(True)` on a successful JSON fetch with
always-coercible `offshore` fields. -/
theorem filter_by_offshore_true_ok (fetch : Nat → Payload)
    (d : RDict) (rs : List Record)
    (hfetch : fetch 1000 = Payload.json d)
    (herr : hasKey d "error" = false)
    (hrecs : lookupRD d "records" = some (RVal.recs rs))
    (hok : ∀ r ∈ rs, (coerceField r "offshore").isOk = true) :
    filter_by_offshore fetch true "json" =
      Except.ok (Payload.json
        (dictSet (dictSet d "records" (RVal.recs (rs.filter (passGt "offshore"))))
          "count" (RVal.prim (JVal.num ((rs.filter (passGt "offshore")).length : Rat))))) := by
  have hrecs' : getRecords d = rs := by simp [getRecords, hrecs]
  have hfil : filterE (fun r => (coerceField r "offshore").map (fun q => decide (0 < q))) rs =
      Except.ok (rs.filter (passGt "offshore")) :=
    filterE_eq_filter _ (passGt "offshore") rs
      (fun r hr => coerce_map_gt "offshore" r (hok r hr))
  simp only [filter_by_offshore, hfetch, containsError, herr, hrecs', hfil]
  simp

/-- Behaviour of `filter_by_offshore(False)` on a successful JSON fetch with
always-coercible `offshore` fields. -/
theorem filter_by_offshore_false_ok (fetch : Nat → Payload)
    (d : RDict) (rs : List Record)
    (hfetch : fetch 1000 = Payload.json d)
    (herr : hasKey d "error" = false)
    (hrecs : lookupRD d "records" = some (RVal.recs rs))
    (hok : ∀ r ∈ rs, (coerceField r "offshore").isOk = true) :
    filter_by_offshore fetch false "json" =
      Except.ok (Payload.json
        (dictSet (dictSet d "records" (RVal.recs (rs.filter (passEq0 "offshore"))))
          "count" (RVal.prim (JVal.num ((rs.filter (passEq0 "offshore")).length : Rat))))) := by
  have hrecs' : getRecords d = rs := by simp [getRecords, hrecs]
  have hfil : filterE (fun r => (coerceField r "offshore").map (fun q => decide (q = 0))) rs =
      Except.ok (rs.filter (passEq0 "offshore")) :=
    filterE_eq_filter _ (passEq0 "offshore") rs
      (fun r hr => coerce_map_eq0 "offshore" r (hok r hr))
  simp only [filter_by_offshore, hfetch, containsError, herr, hrecs', hfil]
  simp

/-- C5, as stated, is false for the xml half: `get_wells_data` lets a
malformed XML body's `ParseError` propagate (the only handler catches
`requests.exceptions.RequestException`), so on this concrete malformed
response the decode stage raises instead of returning a Failure value. -/
theorem C5_counterexample_xml_exception_propagates :
    get_wells_data_decode "xml"
        ⟨"<not-xml", Except.error "Expecting value: line 1 column 1 (char 0)",
         Except.error "syntax error: line 1, column 0"⟩ =
      Except.error "syntax error: line 1, column 0" := by
  decide

/-- C5 (amended): for format json, a body that fails JSON parsing yields a
returned error value embedding the parser's message, with a diagnostic that
prints a 200-character prefix of the raw body; for format xml, a malformed
body does NOT yield a returned Failure — the parser's exception propagates
uncaught to the caller. -/
theorem C5_amended_decode_failures (resp : RawResponse) :
    (∀ e, resp.jsonOutcome = Except.error e →
      get_wells_data_decode "json" resp =
        Except.ok (Payload.json
          [("error", RVal.prim (JVal.str ("JSON decode error: " ++ e)))],
          ["Error parsing JSON response: " ++ e,
           "Response text: " ++ resp.text.take 200 ++ "..."])) ∧
    (∀ e, resp.xmlOutcome = Except.error e →
      get_wells_data_decode "xml" resp = Except.error e) := by
  constructor
  · intro e he
    simp [get_wells_data_decode, he]
  · intro e he
    simp [get_wells_data_decode, he]

/-- Witness for the amended C5 at a concrete malformed response. -/
theorem C5_amended_decode_failures_witness :
    get_wells_data_decode "json" ⟨"<", Except.error "ejson", Except.error "exml"⟩ =
      Except.ok (Payload.json
        [("error", RVal.prim (JVal.str ("JSON decode error: " ++ "ejson")))],
        ["Error parsing JSON response: " ++ "ejson",
         "Response text: " ++ ("<" : String).take 200 ++ "..."]) ∧
    get_wells_data_decode "xml" ⟨"<", Except.error "ejson", Except.error "exml"⟩ =
      Except.error "exml" :=
  ⟨(C5_amended_decode_failures ⟨"<", Except.error "ejson", Except.error "exml"⟩).1
     "ejson" rfl,
   (C5_amended_decode_failures ⟨"<", Except.error "ejson", Except.error "exml"⟩).2
     "exml" rfl⟩

/-- C6, as stated, is false: on a fetched record list containing a record
whose mapped state field is the non-numeric text `"abc"`, `filter_by_state`
does not return the filtered records — `float("abc")` raises and the
exception propagates, so no payload is returned at all. -/
theorem C6_counterexample_nonnumeric_field_raises :
    (filter_by_state
        (fun _ => Payload.json
          [("records", RVal.recs
            [[("gujarat", JVal.str "abc")], [("gujarat", JVal.str "3547")]])])
        "gujarat" "json").1 =
      Except.error "could not convert string to float: abc" := by
  decide

/-- C6 (amended): for every recognized state key and every fetched record
list all of whose mapped field values coerce without error (absent, numeric,
or numeric text), `filter_by_state` requests up to 1000 records and returns
exactly the records whose mapped field coerces to a value `> 0`, as the
stable `List.filter` of the fetched order. -/
theorem C6_amended_filter_by_state (fetch : Nat → Payload) (name fld : String)
    (d : RDict) (rs : List Record)
    (hname : lookupStr state_filters (pyLower name) = some fld)
    (hfetch : fetch 1000 = Payload.json d)
    (herr : hasKey d "error" = false)
    (hrecs : lookupRD d "records" = some (RVal.recs rs))
    (hok : ∀ r ∈ rs, (coerceField r fld).isOk = true) :
    (filter_by_state fetch name "json").1 =
      Except.ok (Payload.json
        (dictSet (dictSet d "records" (RVal.recs (rs.filter (passGt fld))))
          "count" (RVal.prim (JVal.num ((rs.filter (passGt fld)).length : Rat))))) :=
  filter_by_state_json_ok fetch name fld d rs hname hfetch herr hrecs hok

/-- Witness for the amended C6: the spec's own example — one record with
gujarat `"3547"` and one with gujarat `"0"` — keeps exactly the first
record, with the count updated to 1. -/
theorem C6_amended_filter_by_state_witness :
    (filter_by_state
        (fun _ => Payload.json
          [("records", RVal.recs
            [[("gujarat", JVal.str "3547")], [("gujarat", JVal.str "0")]])])
        "gujarat" "json").1 =
      Except.ok (Payload.json
        [("records", RVal.recs [[("gujarat", JVal.str "3547")]]),
         ("count", RVal.prim (JVal.num 1))]) :=
  (C6_amended_filter_by_state
      (fun _ => Payload.json
        [("records", RVal.recs
          [[("gujarat", JVal.str "3547")], [("gujarat", JVal.str "0")]])])
      "gujarat" "gujarat"
      [("records", RVal.recs
        [[("gujarat", JVal.str "3547")], [("gujarat", JVal.str "0")]])]
      [[("gujarat", JVal.str "3547")], [("gujarat", JVal.str "0")]]
      (by decide) rfl (by decide) (by decide) (by decide)).trans (by decide)

/-- C7, as stated, is false: a fetched record whose `offshore` field is the
non-numeric text `"abc"` makes `filter_by_offshore(True)` raise `ValueError`
instead of returning the records whose coerced `offshore` value is `> 0`
(under the spec's own coercion, `"abc"` would coerce to 0 and simply be
excluded). -/
theorem C7_counterexample_nonnumeric_offshore_raises :
    filter_by_offshore
        (fun _ => Payload.json
          [("records", RVal.recs [[("offshore", JVal.str "abc")]])])
        true "json" =
      Except.error "could not convert string to float: abc" := by
  decide

/-- C7 (amended): for every fetched record list all of whose `offshore`
values coerce without error, `filter_by_offshore(true)` returns exactly the
records whose `offshore` field coerces to `> 0` and
`filter_by_offshore(false)` exactly those coercing to 0, each as a stable
filter of the input order; a record with no `offshore` field at all passes
the onshore (false) predicate, since the missing field defaults to 0. -/
theorem C7_amended_filter_by_offshore (fetch : Nat → Payload)
    (d : RDict) (rs : List Record)
    (hfetch : fetch 1000 = Payload.json d)
    (herr : hasKey d "error" = false)
    (hrecs : lookupRD d "records" = some (RVal.recs rs))
    (hok : ∀ r ∈ rs, (coerceField r "offshore").isOk = true) :
    (filter_by_offshore fetch true "json" =
      Except.ok (Payload.json
        (dictSet (dictSet d "records" (RVal.recs (rs.filter (passGt "offshore"))))
          "count" (RVal.prim (JVal.num ((rs.filter (passGt "offshore")).length : Rat)))))) ∧
    (filter_by_offshore fetch false "json" =
      Except.ok (Payload.json
        (dictSet (dictSet d "records" (RVal.recs (rs.filter (passEq0 "offshore"))))
          "count" (RVal.prim (JVal.num ((rs.filter (passEq0 "offshore")).length : Rat)))))) ∧
    (∀ r, getField r "offshore" = none → passEq0 "offshore" r = true) := by
  refine ⟨filter_by_offshore_true_ok fetch d rs hfetch herr hrecs hok,
          filter_by_offshore_false_ok fetch d rs hfetch herr hrecs hok, ?_⟩
  intro r hr
  simp [passEq0, coerceField, hr, pyFloat]

/-- Witness for the amended C7 on a two-record dataset: the record with
`offshore = "2"` is kept by the true filter, the record lacking an
`offshore` field is kept by the false filter. -/
theorem C7_amended_filter_by_offshore_witness :
    (filter_by_offshore
        (fun _ => Payload.json
          [("records", RVal.recs [[("offshore", JVal.str "2")], [("x", JVal.num 1)]])])
        true "json" =
      Except.ok (Payload.json
        [("records", RVal.recs [[("offshore", JVal.str "2")]]),
         ("count", RVal.prim (JVal.num 1))])) ∧
    (filter_by_offshore
        (fun _ => Payload.json
          [("records", RVal.recs [[("offshore", JVal.str "2")], [("x", JVal.num 1)]])])
        false "json" =
      Except.ok (Payload.json
        [("records", RVal.recs [[("x", JVal.num 1)]]),
         ("count", RVal.prim (JVal.num 1))])) ∧
    passEq0 "offshore" [("x", JVal.num 1)] = true :=
  ⟨((C7_amended_filter_by_offshore
      (fun _ => Payload.json
        [("records", RVal.recs [[("offshore", JVal.str "2")], [("x", JVal.num 1)]])])
      [("records", RVal.recs [[("offshore", JVal.str "2")], [("x", JVal.num 1)]])]
      [[("offshore", JVal.str "2")], [("x", JVal.num 1)]]
      rfl (by decide) (by decide) (by decide)).1).trans (by decide),
   ((C7_amended_filter_by_offshore
      (fun _ => Payload.json
        [("records", RVal.recs [[("offshore", JVal.str "2")], [("x", JVal.num 1)]])])
      [("records", RVal.recs [[("offshore", JVal.str "2")], [("x", JVal.num 1)]])]
      [[("offshore", JVal.str "2")], [("x", JVal.num 1)]]
      rfl (by decide) (by decide) (by decide)).2.1).trans (by decide),
   (C7_amended_filter_by_offshore
      (fun _ => Payload.json
        [("records", RVal.recs [[("offshore", JVal.str "2")], [("x", JVal.num 1)]])])
      [("records", RVal.recs [[("offshore", JVal.str "2")], [("x", JVal.num 1)]])]
      [[("offshore", JVal.str "2")], [("x", JVal.num 1)]]
      rfl (by decide) (by decide) (by decide)).2.2 [("x", JVal.num 1)] (by decide)⟩

/-- C8: for every state name outside the recognized set (after Python's
case-insensitive `.lower()` normalization), `filter_by_state` returns the
error mapping embedding the valid-key message, issues no fetch (second
component `false`), and the recognized set is exactly the ten known state
keys. -/
theorem C8_invalid_state_no_fetch (fetch : Nat → Payload) (name fmt : String)
    (h : lookupStr state_filters (pyLower name) = none) :
    filter_by_state fetch name fmt =
      (Except.ok (Payload.json
        [("error", RVal.prim (JVal.str availableStatesMsg))]), false) ∧
    state_filters.map Prod.fst =
      ["gujarat", "rajasthan", "assam", "tripura", "andhra_pradesh", "tamilnadu",
       "west_bengal", "jharkhand", "madhya_pradesh", "other_states"] := by
  constructor
  · simp only [filter_by_state, h]
  · decide

/-- Witness for C8 at the spec's example `"atlantis"` (and mixed case, to
exercise the case-insensitive normalization). -/
theorem C8_invalid_state_no_fetch_witness :
    (lookupStr state_filters (pyLower "Atlantis") = none) ∧
    (filter_by_state (fun _ => Payload.json []) "Atlantis" "json" =
      (Except.ok (Payload.json
        [("error", RVal.prim (JVal.str availableStatesMsg))]), false) ∧
     state_filters.map Prod.fst =
       ["gujarat", "rajasthan", "assam", "tripura", "andhra_pradesh", "tamilnadu",
        "west_bengal", "jharkhand", "madhya_pradesh", "other_states"]) :=
  ⟨by decide,
   C8_invalid_state_no_fetch (fun _ => Payload.json []) "Atlantis" "json" (by decide)⟩

/-- C9: for every format other than json, `filter_by_state` with a
recognized key and `filter_by_offshore` (both polarities) return the fetched
payload unchanged — the json-only filtering block is skipped and both the
error branch and the fall-through return the same `all_data` object, so the
filter is the identity on the payload. -/
theorem C9_nonjson_returns_payload_unchanged (fetch : Nat → Payload)
    (name fmt fld : String) (hfmt : ¬(fmt = "json"))
    (hname : lookupStr state_filters (pyLower name) = some fld) :
    (filter_by_state fetch name fmt).1 = Except.ok (fetch 1000) ∧
    filter_by_offshore fetch true fmt = Except.ok (fetch 1000) ∧
    filter_by_offshore fetch false fmt = Except.ok (fetch 1000) := by
  refine ⟨?_, ?_, ?_⟩ <;>
  · simp only [filter_by_state, filter_by_offshore, hname]
    by_cases hce : containsError (fetch 1000) = true <;> simp [hce, hfmt]

/-- Witness for C9 with format csv and a raw text payload. -/
theorem C9_nonjson_returns_payload_unchanged_witness :
    (¬(("csv" : String) = "json")) ∧
    (lookupStr state_filters (pyLower "gujarat") = some "gujarat") ∧
    ((filter_by_state (fun _ => Payload.text "a,b\n1,2") "gujarat" "csv").1 =
       Except.ok (Payload.text "a,b\n1,2") ∧
     filter_by_offshore (fun _ => Payload.text "a,b\n1,2") true "csv" =
       Except.ok (Payload.text "a,b\n1,2") ∧
     filter_by_offshore (fun _ => Payload.text "a,b\n1,2") false "csv" =
       Except.ok (Payload.text "a,b\n1,2")) :=
  ⟨by decide, by decide,
   C9_nonjson_returns_payload_unchanged (fun _ => Payload.text "a,b\n1,2")
     "gujarat" "csv" "gujarat" (by decide) (by decide)⟩

/-- The mapping built by the filters' two dict assignments: `"records"`
holds the filtered list, `"count"` its length, and every other key reads
exactly as in the fetched mapping. -/
theorem filtered_dict_frame (d : RDict) (X : List Record) :
    lookupRD (dictSet (dictSet d "records" (RVal.recs X)) "count"
        (RVal.prim (JVal.num (X.length : Rat)))) "records" = some (RVal.recs X) ∧
    lookupRD (dictSet (dictSet d "records" (RVal.recs X)) "count"
        (RVal.prim (JVal.num (X.length : Rat)))) "count" =
      some (RVal.prim (JVal.num (X.length : Rat))) ∧
    ∀ k, ¬(k = "records") → ¬(k = "count") →
      lookupRD (dictSet (dictSet d "records" (RVal.recs X)) "count"
          (RVal.prim (JVal.num (X.length : Rat)))) k = lookupRD d k := by
  refine ⟨?_, lookupRD_dictSet_self _ _ _, ?_⟩
  · rw [lookupRD_dictSet_ne _ _ _ _ (by decide), lookupRD_dictSet_self]
  · intro k h1 h2
    rw [lookupRD_dictSet_ne _ _ _ _ h2, lookupRD_dictSet_ne _ _ _ _ h1]

/-- C10, as stated, is false: on a successful JSON fetch whose record list
contains a field value (`"n/a"`) that `float()` cannot parse,
`filter_by_state` raises instead of returning any response mapping at all,
so no mapping with updated `"records"`/`"count"` entries is returned. -/
theorem C10_counterexample_no_mapping_returned :
    (filter_by_state
        (fun _ => Payload.json
          [("records", RVal.recs [[("gujarat", JVal.str "n/a")]]),
           ("total", RVal.prim (JVal.num 20))])
        "gujarat" "json").1 =
      Except.error "could not convert string to float: n/a" := by
  decide

/-- C10 (amended): for every successful JSON fetch whose records all coerce
without error on the relevant field, `filter_by_state` (recognized key) and
`filter_by_offshore` return a mapping in which `"records"` is the filtered
list, `"count"` is its length, and every other top-level entry keeps its
fetched value. -/
theorem C10_amended_frame_effect (fetch : Nat → Payload) (name fld : String)
    (d : RDict) (rs : List Record) (b : Bool)
    (hname : lookupStr state_filters (pyLower name) = some fld)
    (hfetch : fetch 1000 = Payload.json d)
    (herr : hasKey d "error" = false)
    (hrecs : lookupRD d "records" = some (RVal.recs rs))
    (hok1 : ∀ r ∈ rs, (coerceField r fld).isOk = true)
    (hok2 : ∀ r ∈ rs, (coerceField r "offshore").isOk = true) :
    (∃ d1, (filter_by_state fetch name "json").1 = Except.ok (Payload.json d1) ∧
      lookupRD d1 "records" = some (RVal.recs (rs.filter (passGt fld))) ∧
      lookupRD d1 "count" =
        some (RVal.prim (JVal.num ((rs.filter (passGt fld)).length : Rat))) ∧
      ∀ k, ¬(k = "records") → ¬(k = "count") → lookupRD d1 k = lookupRD d k) ∧
    (∃ d2, filter_by_offshore fetch b "json" = Except.ok (Payload.json d2) ∧
      lookupRD d2 "records" = some (RVal.recs
        (rs.filter (if b then passGt "offshore" else passEq0 "offshore"))) ∧
      lookupRD d2 "count" = some (RVal.prim (JVal.num
        ((rs.filter (if b then passGt "offshore" else passEq0 "offshore")).length : Rat))) ∧
      ∀ k, ¬(k = "records") → ¬(k = "count") → lookupRD d2 k = lookupRD d k) := by
  constructor
  · exact ⟨_, filter_by_state_json_ok fetch name fld d rs hname hfetch herr hrecs hok1,
      filtered_dict_frame d (rs.filter (passGt fld))⟩
  · cases b with
    | true =>
      exact ⟨_, filter_by_offshore_true_ok fetch d rs hfetch herr hrecs hok2,
        filtered_dict_frame d (rs.filter (passGt "offshore"))⟩
    | false =>
      exact ⟨_, filter_by_offshore_false_ok fetch d rs hfetch herr hrecs hok2,
        filtered_dict_frame d (rs.filter (passEq0 "offshore"))⟩

/-- Witness for the amended C10: a fetched mapping with an extra `"total"`
entry keeps it unchanged while `"records"` and `"count"` are rewritten. -/
theorem C10_amended_frame_effect_witness :
    (∃ d1, (filter_by_state
        (fun _ => Payload.json
          [("records", RVal.recs [[("gujarat", JVal.num 5), ("offshore", JVal.num 0)]]),
           ("total", RVal.prim (JVal.num 9))])
        "gujarat" "json").1 = Except.ok (Payload.json d1) ∧
      lookupRD d1 "records" = some (RVal.recs
        ([[("gujarat", JVal.num 5), ("offshore", JVal.num 0)]].filter (passGt "gujarat"))) ∧
      lookupRD d1 "count" = some (RVal.prim (JVal.num
        (([[("gujarat", JVal.num 5), ("offshore", JVal.num 0)]].filter
          (passGt "gujarat")).length : Rat))) ∧
      ∀ k, ¬(k = "records") → ¬(k = "count") → lookupRD d1 k =
        lookupRD [("records", RVal.recs
            [[("gujarat", JVal.num 5), ("offshore", JVal.num 0)]]),
          ("total", RVal.prim (JVal.num 9))] k) ∧
    (∃ d2, filter_by_offshore
        (fun _ => Payload.json
          [("records", RVal.recs [[("gujarat", JVal.num 5), ("offshore", JVal.num 0)]]),
           ("total", RVal.prim (JVal.num 9))])
        true "json" = Except.ok (Payload.json d2) ∧
      lookupRD d2 "records" = some (RVal.recs
        ([[("gujarat", JVal.num 5), ("offshore", JVal.num 0)]].filter (passGt "offshore"))) ∧
      lookupRD d2 "count" = some (RVal.prim (JVal.num
        (([[("gujarat", JVal.num 5), ("offshore", JVal.num 0)]].filter
          (passGt "offshore")).length : Rat))) ∧
      ∀ k, ¬(k = "records") → ¬(k = "count") → lookupRD d2 k =
        lookupRD [("records", RVal.recs
            [[("gujarat", JVal.num 5), ("offshore", JVal.num 0)]]),
          ("total", RVal.prim (JVal.num 9))] k) :=
  C10_amended_frame_effect
    (fun _ => Payload.json
      [("records", RVal.recs [[("gujarat", JVal.num 5), ("offshore", JVal.num 0)]]),
       ("total", RVal.prim (JVal.num 9))])
    "gujarat" "gujarat"
    [("records", RVal.recs [[("gujarat", JVal.num 5), ("offshore", JVal.num 0)]]),
     ("total", RVal.prim (JVal.num 9))]
    [[("gujarat", JVal.num 5), ("offshore", JVal.num 0)]] true
    (by decide) rfl (by decide) (by decide) (by decide) (by decide)

end Wells
